import Mathlib

/-!
Verification of the `lupaxa-security-toolbox/certtool` configuration-resolution
and certificate-generation pipeline.

The Python modules `config.py`, `certs.py`, `cli.py`, `utils.py` and
`exceptions.py` are shallowly embedded below.  JSON data is modelled by the
inductive `JsonValue`; Python dictionaries become association lists; Python
exceptions become an explicit `PyError` sum carried in `Except`; the
filesystem state relevant to directory naming becomes an explicit list of
existing directory names.  Machine-level concerns (actual RSA arithmetic,
ASN.1 encoding, wall-clock time, randomness of serial numbers) are delegated
by the source to the `cryptography` library and are represented by explicit
parameters or by structures that record exactly the parameters the source
feeds to that library.
-/

namespace CertTool

/-- Model of a parsed JSON value (the result of Python `json.loads`), also
used for values held in the dynamically typed DN / CONFIG dictionaries.
Python `float` is modelled by `Rat`. -/
inductive JsonValue where
  | null : JsonValue
  | bool (b : Bool) : JsonValue
  | int (n : Int) : JsonValue
  | float (x : Rat) : JsonValue
  | str (s : String) : JsonValue
  | arr (xs : List JsonValue) : JsonValue
  | obj (fields : List (String × JsonValue)) : JsonValue
deriving Repr

/-- Python dictionaries with string keys, as insertion-ordered association
lists (keys unique, as produced by `json.loads`). -/
abbrev PyDict := List (String × JsonValue)

/-- Python `str.lower()` (ASCII, which is all the source compares). -/
def pyLower (s : String) : String :=
  ⟨s.data.map Char.toLower⟩

/-- Python `str.upper()` (ASCII). -/
def pyUpper (s : String) : String :=
  ⟨s.data.map Char.toUpper⟩

/-- Python `str.strip()`: remove leading and trailing whitespace. -/
def pyStrip (s : String) : String :=
  ⟨((s.data.dropWhile Char.isWhitespace).reverse.dropWhile Char.isWhitespace).reverse⟩

/-- Truthiness of a Python value (`bool(value)` / use in an `if`). -/
def pyTruthy : JsonValue → Bool
  | .null => false
  | .bool b => b
  | .int n => n != 0
  | .float x => x != 0
  | .str s => s != ""
  | .arr xs => !xs.isEmpty
  | .obj fields => !fields.isEmpty

/-- Python `repr` of a value, used in error messages. -/
def JsonValue.pyRepr : JsonValue → String
  | .null => "None"
  | .bool true => "True"
  | .bool false => "False"
  | .int n => toString n
  | .float x => toString x.num ++ (if x.den = 1 then ".0" else "/" ++ toString x.den)
  | .str s => "\x27" ++ s ++ "\x27"
  | .arr xs => "[" ++ String.intercalate ", " (xs.attach.map (fun y => y.1.pyRepr)) ++ "]"
  | .obj fields =>
      "\x7b" ++
        String.intercalate ", "
          (fields.attach.map (fun y => "\x27" ++ y.1.1 ++ "\x27: " ++ y.1.2.pyRepr)) ++
      "\x7d"
decreasing_by
  · have := List.sizeOf_lt_of_mem y.2; simp at this ⊢; omega
  · obtain ⟨⟨k, v⟩, hm⟩ := y
    have := List.sizeOf_lt_of_mem hm
    simp at this ⊢
    omega

/-- Python `str(value)`. -/
def pyStr : JsonValue → String
  | .str s => s
  | v => v.pyRepr

/-- Exceptions the embedded code can raise.  The first four constructors are
the classes of `exceptions.py` (`CertToolError` and its three subclasses);
`valueError`, `typeError` and `attributeError` are Python built-in exceptions,
which are *not* part of the `CertToolError` hierarchy of the tool. -/
inductive PyError where
  | certToolError (msg : String)
  | configError (msg : String)
  | generationError (msg : String)
  | outputError (msg : String)
  | valueError (msg : String)
  | typeError (msg : String)
  | attributeError (msg : String)
deriving Repr, DecidableEq

instance {ε α : Type} [DecidableEq ε] [DecidableEq α] : DecidableEq (Except ε α)
  | .ok a, .ok b =>
    if h : a = b then .isTrue (by rw [h]) else .isFalse (by intro hc; cases hc; exact h rfl)
  | .ok _, .error _ => .isFalse (by intro hc; cases hc)
  | .error _, .ok _ => .isFalse (by intro hc; cases hc)
  | .error e, .error f =>
    if h : e = f then .isTrue (by rw [h]) else .isFalse (by intro hc; cases hc; exact h rfl)

/-- Whether an exception is caught by `except CertToolError` (the common base
kind of `exceptions.py`). -/
def PyError.isCertToolError : PyError → Bool
  | .certToolError _ => true
  | .configError _ => true
  | .generationError _ => true
  | .outputError _ => true
  | .valueError _ => false
  | .typeError _ => false
  | .attributeError _ => false

/-- Decimal parse of a non-empty all-digit character list, as used by Python
`int(str)` after sign handling. -/
def digitsToNat? (cs : List Char) : Option Nat :=
  if cs.isEmpty then none
  else if cs.all (fun c => c.isDigit) then
    some (cs.foldl (fun acc c => acc * 10 + (c.toNat - 48)) 0)
  else none

/-- Python `int(value)`: identity on ints, `True`/`False` to `1`/`0`,
truncation toward zero on floats, base-10 parse (with optional sign, after
stripping whitespace) on strings; anything else is a `TypeError`, an
unparsable string a `ValueError`. -/
def pyInt : JsonValue → Except PyError Int
  | .bool b => .ok (if b then 1 else 0)
  | .int n => .ok n
  | .float x => .ok (if 0 ≤ x then ⌊x⌋ else ⌈x⌉)
  | .str s =>
      let parsed : Option Int :=
        match (pyStrip s).data with
        | '-' :: rest => (digitsToNat? rest).map (fun n => -(n : Int))
        | '+' :: rest => (digitsToNat? rest).map (fun n => (n : Int))
        | cs => (digitsToNat? cs).map (fun n => (n : Int))
      match parsed with
      | some n => .ok n
      | none =>
          .error (.valueError
            ("invalid literal for int() with base 10: " ++ (JsonValue.str s).pyRepr))
  | v =>
      .error (.typeError
        ("int() argument must be a string or a number, not " ++ v.pyRepr))

/-- Replace the value stored under `k` (Python `d[k] = v` on a dict),
appending the key if absent. -/
def dictSet (d : PyDict) (k : String) (v : JsonValue) : PyDict :=
  if (d.lookup k).isSome then
    d.map (fun kv => if kv.1 = k then (k, v) else kv)
  else
    d ++ [(k, v)]

/-- Python `base.update(overlay)` on dicts. -/
def dictUpdate (base overlay : PyDict) : PyDict :=
  overlay.foldl (fun acc kv => dictSet acc kv.1 kv.2) base

/-- Python `k in d` on a dict. -/
def dictContains (d : PyDict) (k : String) : Bool :=
  (d.lookup k).isSome

/-! ## `config.py` -/

/-- Source `utils.DN_KEYS`: the recognized DN attribute names. -/
def DN_KEYS : List String :=
  [ "countryName"
  , "stateOrProvinceName"
  , "localityName"
  , "organizationName"
  , "organizationalUnitName"
  , "commonName"
  , "emailAddress" ]

/-- Source `utils.CONFIG_DEFAULT`: the default CONFIG dictionary. -/
def CONFIG_DEFAULT : PyDict :=
  [ ("digest_alg", .str "sha512")
  , ("private_key_bits", .int 2048)
  , ("private_key_type", .str "RSA")
  , ("encrypt_key", .bool false)
  , ("valid_days", .int 365)
  , ("subject_alt_names", .arr []) ]

/-- Source `config._coerce_bool`: convert an arbitrary JSON value to a
boolean; bools pass through, numbers are truthiness-coerced, strings are
matched (trimmed, lower-cased) against fixed truthy/falsy word sets, and
everything else raises `ConfigError`. -/
def _coerce_bool (value : JsonValue) : Except PyError Bool :=
  match value with
  | .bool b => .ok b
  | .int n => .ok (pyTruthy (.int n))
  | .float x => .ok (pyTruthy (.float x))
  | .str s =>
      let v := pyLower (pyStrip s)
      if v = "1" ∨ v = "true" ∨ v = "yes" ∨ v = "y" ∨ v = "on" then .ok true
      else if v = "0" ∨ v = "false" ∨ v = "no" ∨ v = "n" ∨ v = "off" then .ok false
      else .error (.configError ("Cannot coerce " ++ value.pyRepr ++ " to bool"))
  | v => .error (.configError ("Cannot coerce " ++ v.pyRepr ++ " to bool"))

/-- Source `config._coerce_config_types`: coerce `private_key_bits` and
`valid_days` with bare Python `int()` (whose failures are *not* wrapped) and
`encrypt_key` with `_coerce_bool`. -/
def _coerce_config_types (cfg : PyDict) : Except PyError PyDict := do
  let cfg ←
    match cfg.lookup "private_key_bits" with
    | some v => do
        let n ← pyInt v
        pure (dictSet cfg "private_key_bits" (.int n))
    | none => pure cfg
  let cfg ←
    match cfg.lookup "valid_days" with
    | some v => do
        let n ← pyInt v
        pure (dictSet cfg "valid_days" (.int n))
    | none => pure cfg
  let cfg ←
    match cfg.lookup "encrypt_key" with
    | some v => do
        let b ← _coerce_bool v
        pure (dictSet cfg "encrypt_key" (.bool b))
    | none => pure cfg
  pure cfg

/-- Source `config._extract_explicit_blocks`: use the `"dn"` and `"config"`
sub-mappings when they are dicts; a present but non-dict value is silently
ignored. -/
def _extract_explicit_blocks (data : PyDict) : PyDict × PyDict :=
  let dn : PyDict :=
    match data.lookup "dn" with
    | some (.obj fields) => fields
    | _ => []
  let cfg : PyDict :=
    match data.lookup "config" with
    | some (.obj fields) => fields
    | _ => []
  (dn, cfg)

/-- Source `config._extract_flat_config`: route each top-level key to DN if it
is in `DN_KEYS`, to CONFIG if it is a default CONFIG key or `"passphrase"`,
and silently drop it otherwise. -/
def _extract_flat_config : PyDict → PyDict × PyDict
  | [] => ([], [])
  | (key, value) :: rest =>
      let (dn, cfg) := _extract_flat_config rest
      if key ∈ DN_KEYS then ((key, value) :: dn, cfg)
      else if dictContains CONFIG_DEFAULT key ∨ key = "passphrase" then
        (dn, (key, value) :: cfg)
      else (dn, cfg)

/-- Shape dispatch of `config.load_json_config` after the file has been read
and the top level checked to be a dict: the presence of a `"dn"` or
`"config"` key selects the explicit-block shape, otherwise the flat shape is
used, and then `_coerce_config_types` runs on the CONFIG part. -/
def load_json_config_data (data : PyDict) : Except PyError (PyDict × PyDict) := do
  let (dn, cfg) :=
    if dictContains data "dn" ∨ dictContains data "config" then
      _extract_explicit_blocks data
    else
      _extract_flat_config data
  let cfg ← _coerce_config_types cfg
  pure (dn, cfg)

/-- Source `config.validate_dn`: the DN must be non-empty and hold a
`commonName` that is truthy and non-blank after `str(...).strip()`. -/
def validate_dn (dn : PyDict) : Except PyError Unit :=
  if dn.isEmpty then
    .error (.configError
      "DN is empty. You must supply DN attributes (at least commonName) either via CLI or JSON configuration.")
  else
    let cn := dn.lookup "commonName"
    if !(match cn with | some v => pyTruthy v | none => false)
        ∨ pyStrip (pyStr ((cn).getD .null)) = "" then
      .error (.configError
        "DN is missing commonName. Provide it in the JSON config or via CLI.")
    else .ok ()

/-- The private-key-type check `cfg.get("private_key_type", "").upper() !=
"RSA"`, as written identically in `config.merge_settings_json` and
`certs.generate_from_dn_and_config`; a non-string value would hit Python
`AttributeError` on `.upper()`. -/
def check_private_key_type (cfg : PyDict) : Except PyError Unit :=
  match (cfg.lookup "private_key_type").getD (.str "") with
  | .str s =>
      if pyUpper s ≠ "RSA" then
        .error (.configError
          ("Unsupported private_key_type " ++ (JsonValue.str s).pyRepr ++
            "; only \x27RSA\x27 is supported."))
      else .ok ()
  | v => .error (.attributeError (v.pyRepr ++ " has no attribute upper"))

/-- Source `config.merge_settings_json`: DN is taken solely from the JSON DN;
CONFIG starts from `CONFIG_DEFAULT` and is overlaid with the JSON CONFIG;
`private_key_bits` and `valid_days` are re-coerced with bare `int()`; the
private-key type is checked; the DN is validated. -/
def merge_settings_json (json_dn : Option PyDict) (json_cfg : Option PyDict) :
    Except PyError (PyDict × PyDict) := do
  let dn : PyDict := json_dn.getD []
  let cfg := dictUpdate CONFIG_DEFAULT (json_cfg.getD [])
  let bits ← pyInt ((cfg.lookup "private_key_bits").getD .null)
  let cfg := dictSet cfg "private_key_bits" (.int bits)
  let days ← pyInt ((cfg.lookup "valid_days").getD .null)
  let cfg := dictSet cfg "valid_days" (.int days)
  let _ ← check_private_key_type cfg
  let _ ← validate_dn dn
  pure (dn, cfg)

/-! ## `certs.py`: digests, names, generation -/

/-- The three digest algorithms of `certs.ALLOWED_DIGESTS`; the actual hash
computation is delegated to the `cryptography` library. -/
inductive DigestAlgorithm where
  | sha256
  | sha384
  | sha512
deriving Repr, DecidableEq

/-- Source `certs.ALLOWED_DIGESTS`: the digest lookup table. -/
def ALLOWED_DIGESTS : List (String × DigestAlgorithm) :=
  [("sha256", .sha256), ("sha384", .sha384), ("sha512", .sha512)]

/-- Source `certs.get_digest`: lower-case the requested name and look it up in
`ALLOWED_DIGESTS`; a missing key becomes a `ConfigError`. -/
def get_digest (digest_name : String) : Except PyError DigestAlgorithm :=
  let key := pyLower digest_name
  match ALLOWED_DIGESTS.lookup key with
  | some d => .ok d
  | none => .error (.configError ("Unsupported digest: " ++ (JsonValue.str key).pyRepr))

/-- The X.509 name attribute OIDs used by `certs.build_x509_name`. -/
inductive NameOID where
  | COUNTRY_NAME
  | STATE_OR_PROVINCE_NAME
  | LOCALITY_NAME
  | ORGANIZATION_NAME
  | ORGANIZATIONAL_UNIT_NAME
  | COMMON_NAME
  | EMAIL_ADDRESS
deriving Repr, DecidableEq

/-- An `x509.Name`: the ordered list of name attributes. -/
abbrev X509Name := List (NameOID × JsonValue)

/-- Source `certs.build_x509_name`: append one attribute per recognized DN
key, in the fixed source order, skipping absent or falsy values. -/
def build_x509_name (dn : PyDict) : X509Name :=
  let add := fun (k : String) (oid : NameOID) =>
    match dn.lookup k with
    | some v => if pyTruthy v then [(oid, v)] else ([] : X509Name)
    | none => ([] : X509Name)
  add "countryName" .COUNTRY_NAME ++
  add "stateOrProvinceName" .STATE_OR_PROVINCE_NAME ++
  add "localityName" .LOCALITY_NAME ++
  add "organizationName" .ORGANIZATION_NAME ++
  add "organizationalUnitName" .ORGANIZATIONAL_UNIT_NAME ++
  add "commonName" .COMMON_NAME ++
  add "emailAddress" .EMAIL_ADDRESS

/-- An RSA private key, recorded by the parameters `certs.generate_key_pair`
feeds to `rsa.generate_private_key` (the key arithmetic itself is delegated
to the `cryptography` library). -/
structure RSAPrivateKey where
  key_size : Nat
  public_exponent : Nat
deriving Repr, DecidableEq

/-- The public component of an RSA key. -/
structure RSAPublicKey where
  key_size : Nat
  public_exponent : Nat
deriving Repr, DecidableEq

/-- Python `private_key.public_key()`. -/
def RSAPrivateKey.public_key (k : RSAPrivateKey) : RSAPublicKey :=
  ⟨k.key_size, k.public_exponent⟩

/-- Source `certs.generate_key_pair`: an RSA key with public exponent 65537
and the requested bit length. -/
def generate_key_pair (bits : Nat) : RSAPrivateKey :=
  ⟨bits, 65537⟩

/-- A certificate signing request as built by `certs.generate_csr`: subject
name, signing key and signing digest; no extensions are attached. -/
structure CertificateSigningRequest where
  subject_name : X509Name
  signer : RSAPrivateKey
  signature_hash : DigestAlgorithm
deriving Repr

/-- Source `certs.generate_csr`. -/
def generate_csr (private_key : RSAPrivateKey) (subject : X509Name)
    (digest_alg : String) : Except PyError CertificateSigningRequest := do
  let dig ← get_digest digest_alg
  pure ⟨subject, private_key, dig⟩

/-- The payload of an X.509 extension used by this program. -/
inductive ExtensionValue where
  | basicConstraints (ca : Bool) (path_length : Option Nat)
  | subjectAlternativeName (dns_names : List String)
deriving Repr, DecidableEq

/-- An X.509 extension together with its criticality flag. -/
structure Extension where
  value : ExtensionValue
  critical : Bool
deriving Repr, DecidableEq

/-- A self-signed X.509 certificate as assembled by
`certs.generate_self_signed_cert`.  Validity instants are seconds; the
wall-clock time `now` and the random serial number are explicit inputs of
the model. -/
structure Certificate where
  subject_name : X509Name
  issuer_name : X509Name
  public_key : RSAPublicKey
  serial_number : Nat
  not_valid_before : Int
  not_valid_after : Int
  extensions : List Extension
  signer : RSAPrivateKey
  signature_hash : DigestAlgorithm
deriving Repr

/-- Source `certs.generate_self_signed_cert`: issuer = subject, validity from
one minute before `now` to `valid_days` days after `now`, a critical CA
Basic Constraints extension always, and a non-critical Subject Alternative
Name extension exactly when the passed list is truthy (not `None` and
non-empty). -/
def generate_self_signed_cert (private_key : RSAPrivateKey) (subject : X509Name)
    (digest_alg : String) (valid_days : Int)
    (subject_alt_names : Option (List String)) (now : Int) (serial : Nat) :
    Except PyError Certificate := do
  let base_extensions : List Extension := [⟨.basicConstraints true none, true⟩]
  let extensions :=
    if (match subject_alt_names with | some names => !names.isEmpty | none => false) then
      base_extensions ++ [⟨.subjectAlternativeName (subject_alt_names.getD []), false⟩]
    else base_extensions
  let dig ← get_digest digest_alg
  pure ⟨subject, subject, private_key.public_key, serial, now - 60,
    now + valid_days * 86400, extensions, private_key, dig⟩

/-- Source `certs.CertComponents`. -/
structure CertComponents where
  private_key : RSAPrivateKey
  csr : CertificateSigningRequest
  cert : Certificate
deriving Repr

/-- The typed view of the CONFIG dictionary entries read by
`certs.create_cert_components`: `cfg["digest_alg"]`, `cfg["private_key_bits"]`,
`cfg["valid_days"]` and `cfg.get("subject_alt_names")` (where `none` models an
absent key). -/
structure CertCfg where
  digest_alg : String
  private_key_bits : Nat
  valid_days : Int
  subject_alt_names : Option (List String)
deriving Repr

/-- Source `certs.create_cert_components`: build the subject, generate the
key, the CSR and the self-signed certificate; the SAN argument is
`cfg.get("subject_alt_names") or None`, which maps both an absent key and a
falsy (empty) list to `None`. -/
def create_cert_components (dn : PyDict) (cfg : CertCfg) (now : Int) (serial : Nat) :
    Except PyError CertComponents := do
  let subject := build_x509_name dn
  let private_key := generate_key_pair cfg.private_key_bits
  let csr ← generate_csr private_key subject cfg.digest_alg
  let san_arg : Option (List String) :=
    match cfg.subject_alt_names with
    | some l => if l.isEmpty then none else some l
    | none => none
  let cert ← generate_self_signed_cert private_key subject cfg.digest_alg
    cfg.valid_days san_arg now serial
  pure ⟨private_key, csr, cert⟩

/-! ## `certs.py`: serialization -/

/-- The key-encryption choice fed to `private_bytes`. -/
inductive KeySerializationEncryption where
  | noEncryption
  | bestAvailableEncryption (passphrase_utf8 : String)
deriving Repr, DecidableEq

/-- The private-key PEM as produced by `private_bytes(PEM, PKCS8, encryption)`:
the model records the key and the encryption algorithm under which it was
encoded. -/
structure PrivateKeyPem where
  key : RSAPrivateKey
  encryption_algorithm : KeySerializationEncryption
deriving Repr

/-- The CSR PEM. -/
structure CsrPem where
  csr : CertificateSigningRequest
deriving Repr

/-- The certificate PEM. -/
structure CertificatePem where
  cert : Certificate
deriving Repr

/-- Source `certs.PemBundle`. -/
structure PemBundle where
  certificate_pem : CertificatePem
  csr_pem : CsrPem
  private_key_pem : PrivateKeyPem
deriving Repr

/-- One encoding step performed by `serialize_cert_components`; the returned
trace makes "no encoding was attempted" observable in the model. -/
inductive EncodeEvent where
  | encodeKey
  | encodeCsr
  | encodeCert
deriving Repr, DecidableEq

/-- Source `certs.serialize_cert_components`: choose the key encryption first
(`encrypt_key` with a falsy passphrase is a `ConfigError` raised before any
encoding), then encode key, CSR and certificate. -/
def serialize_cert_components (components : CertComponents) (encrypt_key : Bool)
    (passphrase : Option String) : Except PyError PemBundle × List EncodeEvent :=
  let encryption : Except PyError KeySerializationEncryption :=
    if encrypt_key then
      match passphrase with
      | some p =>
          if p = "" then
            .error (.configError
              "encrypt_key is true but no passphrase was provided. Set passphrase in the JSON config or via --passphrase.")
          else .ok (.bestAvailableEncryption p)
      | none =>
          .error (.configError
            "encrypt_key is true but no passphrase was provided. Set passphrase in the JSON config or via --passphrase.")
    else .ok .noEncryption
  match encryption with
  | .error e => (.error e, [])
  | .ok enc =>
      let private_key_pem : PrivateKeyPem := ⟨components.private_key, enc⟩
      let csr_pem : CsrPem := ⟨components.csr⟩
      let cert_pem : CertificatePem := ⟨components.cert⟩
      (.ok ⟨cert_pem, csr_pem, private_key_pem⟩,
        [.encodeKey, .encodeCsr, .encodeCert])

/-! ## `certs.py`: filesystem naming -/

/-- Source `certs.slugify`. -/
def slugify (value : String) : String :=
  let value := pyLower (pyStrip value)
  if value = "" then "cert"
  else
    let chars := value.data.foldr
      (fun ch acc =>
        if ch.isAlphanum ∨ ch = '.' ∨ ch = '-' ∨ ch = '_' then ch :: acc
        else if ch.isWhitespace then '_' :: acc
        else acc) []
    let strip := fun (c : Char) => c = '.' || c = '-' || c = '_'
    let slug := ((chars.dropWhile strip).reverse.dropWhile strip).reverse
    if slug.isEmpty then "cert" else String.mk slug

/-- Final path component (Python `Path(p).name`, for the label strings the
program passes in). -/
def path_name (p : String) : String :=
  ((p.splitOn "/").filter (fun s => s ≠ "")).getLastD ""

/-- Python `Path(p).stem`: the final component with its last suffix removed,
where a suffix is a dot that is neither the first nor past the last
character of the component. -/
def path_stem (p : String) : String :=
  let nm := path_name p
  let cs := nm.data
  let k := (cs.reverse.takeWhile (fun c => c ≠ '.')).length
  if 0 < k ∧ k + 1 < cs.length then String.mk (cs.take (cs.length - 1 - k)) else nm

/-- Decimal value of a digit string, used to invert `Nat.repr`. -/
def decimalVal : List Char → Nat
  | [] => 0
  | c :: cs => (c.toNat - 48) * 10 ^ cs.length + decimalVal cs

/-- Digit characters decode back to their digit. -/
def digitChar_decode : ∀ d < 10, (Nat.digitChar d).toNat - 48 = d := by decide

/-- Value of the digit list produced by `Nat.toDigitsCore` in base 10. -/
def toDigitsCore_decimalVal : ∀ (fuel n : Nat) (ds : List Char), n < fuel →
    decimalVal (Nat.toDigitsCore 10 fuel n ds) = n * 10 ^ ds.length + decimalVal ds := by
  intro fuel
  induction fuel with
  | zero => intro n ds h; omega
  | succ fuel ih =>
    intro n ds h
    by_cases h10 : n / 10 = 0
    · have hn10 : n < 10 := by omega
      simp only [Nat.toDigitsCore, h10, if_true, decimalVal]
      rw [digitChar_decode _ (by omega)]
      have hmod : n % 10 = n := by omega
      rw [hmod]
    · have hlt : n / 10 < fuel := by omega
      simp only [Nat.toDigitsCore, h10, if_false]
      rw [ih _ _ hlt]
      simp only [decimalVal, List.length_cons]
      rw [digitChar_decode _ (by omega)]
      have hmod : 10 * (n / 10) + n % 10 = n := Nat.div_add_mod n 10
      set a := n / 10 with ha
      set b := n % 10 with hb
      rw [← hmod]
      ring

/-- Decoding the characters of `Nat.repr` recovers the number. -/
def repr_decimalVal (n : Nat) : decimalVal (Nat.repr n).data = n := by
  have h := toDigitsCore_decimalVal (n + 1) n [] (Nat.lt_succ_self n)
  simpa [Nat.repr, Nat.toDigits, List.asString, decimalVal] using h

/-- Distinct naturals print to distinct digit strings. -/
def repr_data_injective : ∀ a b : Nat, (Nat.repr a).data = (Nat.repr b).data → a = b :=
  fun a b h => by
    have ha := repr_decimalVal a
    rw [h] at ha
    exact ha.symm.trans (repr_decimalVal b)

/-- The candidate directory name `f"{base_name}-{counter}"` of the collision
loop in `certs.make_cert_subdir`. -/
def suffixCandidate (base : String) (counter : Nat) : String :=
  base ++ "-" ++ Nat.repr counter

/-- Candidate names are injective in the counter. -/
def suffixCandidate_injective (base : String) :
    ∀ a b : Nat, suffixCandidate base a = suffixCandidate base b → a = b := by
  intro a b h
  have hd := congrArg String.data h
  simp only [suffixCandidate, String.data_append] at hd
  exact repr_data_injective a b (List.append_cancel_left hd)

/-- In any finite list of existing names, some suffixed candidate is unused:
this is why the `while True` collision loop of `make_cert_subdir` always
terminates. -/
def fresh_suffix_exists (fs : List String) (base : String) :
    ∃ j, suffixCandidate base (j + 1) ∉ fs := by
  by_contra hall
  push_neg at hall
  have hinj : Function.Injective (fun j : Nat => suffixCandidate base (j + 1)) := by
    intro a b h
    exact Nat.succ_injective (suffixCandidate_injective base _ _ h)
  have hnd : ((List.range (fs.length + 1)).map
      (fun j => suffixCandidate base (j + 1))).Nodup :=
    (List.nodup_range _).map hinj
  have hsub : ((List.range (fs.length + 1)).map
      (fun j => suffixCandidate base (j + 1))) ⊆ fs := by
    intro x hx
    simp only [List.mem_map] at hx
    obtain ⟨j, _, rfl⟩ := hx
    exact hall j
  have hlen : ((List.range (fs.length + 1)).map
      (fun j => suffixCandidate base (j + 1))).length ≤ fs.length := by
    calc ((List.range (fs.length + 1)).map (fun j => suffixCandidate base (j + 1))).length
        = ((List.range (fs.length + 1)).map
            (fun j => suffixCandidate base (j + 1))).toFinset.card :=
          (List.toFinset_card_of_nodup hnd).symm
      _ ≤ fs.toFinset.card := Finset.card_le_card (fun x hx => by
          simp only [List.mem_toFinset] at hx ⊢
          exact hsub hx)
      _ ≤ fs.length := List.toFinset_card_le fs
  simp only [List.length_map, List.length_range] at hlen
  omega

/-- The first counter value (starting at 1) whose candidate name does not yet
exist: the value at which the collision loop of `make_cert_subdir` stops. -/
def freshCounter (fs : List String) (base : String) : Nat :=
  Nat.find (fresh_suffix_exists fs base) + 1

/-- The first naming step of `certs.make_cert_subdir`:
`str(dn.get("commonName") or "").strip()`. -/
def subdirCn (dn : PyDict) : String :=
  (pyStr (match dn.lookup "commonName" with
    | some v => if pyTruthy v then v else .str ""
    | none => .str ""))

/-- The preferred directory name of `certs.make_cert_subdir`: the slug of the
common name, else the slug of the label stem when the label is truthy, else
the literal `"cert"`. -/
def subdirBaseName (dn : PyDict) (label : Option String) : String :=
  let cn := subdirCn dn
  if cn ≠ "" then slugify cn
  else
    match label with
    | some l => if l ≠ "" then slugify (path_stem l) else "cert"
    | none => "cert"

/-- Source `certs.make_cert_subdir` over an explicit filesystem state (the
list of directory names already existing under the output root): take the
preferred name if unused, otherwise the first unused numerically suffixed
candidate; return the created name and the new state.  Creation is
exclusive: a name is only ever created when it is not in the state. -/
def make_cert_subdir (fs : List String) (dn : PyDict) (label : Option String) :
    String × List String :=
  let base_name := subdirBaseName dn label
  if base_name ∉ fs then (base_name, fs ++ [base_name])
  else
    let cand := suffixCandidate base_name (freshCounter fs base_name)
    (cand, fs ++ [cand])

/-! ## `cli.py`: batch processing -/

/-- Lexicographic comparison of character lists by code point, the order
Python `sorted` uses on the glob results. -/
def lexLe : List Char → List Char → Bool
  | [], _ => true
  | _ :: _, [] => false
  | a :: as, b :: bs =>
    if a.toNat < b.toNat then true
    else if b.toNat < a.toNat then false
    else lexLe as bs

/-- Lexicographic string order as a relation. -/
def strLe (a b : String) : Prop :=
  lexLe a.data b.data = true

instance : DecidableRel strLe := fun a b =>
  inferInstanceAs (Decidable (lexLe a.data b.data = true))

/-- The lexicographic comparison is total. -/
def lexLe_total : ∀ as bs : List Char, lexLe as bs = true ∨ lexLe bs as = true := by
  intro as
  induction as with
  | nil => intro bs; left; rfl
  | cons a as ih =>
    intro bs
    cases bs with
    | nil => right; rfl
    | cons b bs =>
      simp only [lexLe]
      rcases Nat.lt_trichotomy a.toNat b.toNat with h | h | h
      · left; simp [h]
      · have h2 : ¬ a.toNat < b.toNat := by omega
        have h3 : ¬ b.toNat < a.toNat := by omega
        simpa [h2, h3] using ih bs
      · right; simp [h]

/-- The lexicographic comparison is transitive. -/
def lexLe_trans : ∀ as bs cs : List Char,
    lexLe as bs = true → lexLe bs cs = true → lexLe as cs = true := by
  intro as
  induction as with
  | nil => intro bs cs _ _; rfl
  | cons a as ih =>
    intro bs cs hab hbc
    cases bs with
    | nil => simp [lexLe] at hab
    | cons b bs =>
      cases cs with
      | nil => simp [lexLe] at hbc
      | cons c cs =>
        simp only [lexLe] at hab hbc ⊢
        rcases Nat.lt_trichotomy a.toNat c.toNat with h | h | h
        · simp [h]
        · have h2 : ¬ a.toNat < c.toNat := by omega
          have h3 : ¬ c.toNat < a.toNat := by omega
          simp only [h2, if_false, h3]
          by_cases hb1 : a.toNat < b.toNat
          · by_cases hb2 : b.toNat < c.toNat
            · omega
            · have : c.toNat < b.toNat := by
                rcases Nat.lt_trichotomy b.toNat c.toNat with h4 | h4 | h4
                · omega
                · omega
                · exact h4
              simp [hb2, this] at hbc
          · by_cases hb3 : b.toNat < a.toNat
            · simp [hb1, hb3] at hab
            · have hba : b.toNat = a.toNat := by omega
              have hbc2 : ¬ b.toNat < c.toNat := by omega
              have hcb : ¬ c.toNat < b.toNat := by omega
              simp only [hb1, if_false, hb3] at hab
              simp only [hbc2, if_false, hcb] at hbc
              exact ih bs cs hab hbc
        · exfalso
          by_cases hb1 : a.toNat < b.toNat
          · by_cases hb2 : b.toNat < c.toNat
            · omega
            · have : c.toNat < b.toNat := by omega
              simp [hb2, this] at hbc
          · by_cases hb3 : b.toNat < a.toNat
            · simp [hb1, hb3] at hab
            · have : c.toNat < b.toNat := by omega
              simp [this, show ¬ b.toNat < c.toNat by omega] at hbc

instance : IsTotal String strLe :=
  ⟨fun a b => lexLe_total a.data b.data⟩

instance : IsTrans String strLe :=
  ⟨fun a b c => lexLe_trans a.data b.data c.data⟩

/-- Source `cli.process_config_dir_mode` with the filesystem made explicit:
`is_dir` is the directory check, `files` the unordered `*.json` glob result,
and `runItem` the per-file pipeline (`load_json_config`,
`merge_settings_json`, `handle_single_cert`).  Returns the per-file reports
in processing order (each failure carrying its recorded error) and the final
outcome. -/
def process_config_dir_mode (is_dir : Bool) (config_dir : String)
    (files : List String) (runItem : String → Except PyError Unit) :
    List (String × Option PyError) × Except PyError Unit :=
  if !is_dir then
    ([], .error (.configError ("--config-dir " ++ config_dir ++ " is not a directory.")))
  else
    let json_files := files.insertionSort strLe
    if json_files.isEmpty then
      ([], .error (.configError ("No *.json files found in " ++ config_dir)))
    else
      let reports := json_files.map (fun f =>
        (f, match runItem f with | .ok _ => none | .error e => some e))
      let errors := (reports.filter (fun r => r.2.isSome)).length
      (reports,
        if errors = 0 then .ok ()
        else .error (.certToolError
          (Nat.repr errors ++ " config file(s) failed; see error messages above.")))

/-- Whether an extension is a Subject Alternative Name extension. -/
def isSANExtension (e : Extension) : Bool :=
  match e.value with
  | .subjectAlternativeName _ => true
  | _ => false

/-! ## Theorems -/

/-- Routing of a recognized DN key by the flat shape: `_extract_flat_config`
sends every top-level key in `DN_KEYS` to the DN part unchanged. -/
theorem extract_flat_dn_lookup (data : PyDict) (k : String) (hk : k ∈ DN_KEYS) :
    (_extract_flat_config data).1.lookup k = data.lookup k := by
  induction data with
  | nil => rfl
  | cons kv rest ih =>
    obtain ⟨key, value⟩ := kv
    by_cases hmem : key ∈ DN_KEYS
    · simp only [_extract_flat_config, hmem, if_true]
      by_cases hkk : k = key
      · subst hkk
        simp [List.lookup]
      · simp [List.lookup, Ne.symm hkk, hkk, ih]
    · have hkk : k ≠ key := by
        intro h
        subst h
        exact hmem hk
      have hbeq : (k == key) = false := beq_eq_false_iff_ne.mpr hkk
      simp only [_extract_flat_config, hmem, if_false]
      by_cases hcfg : dictContains CONFIG_DEFAULT key ∨ key = "passphrase"
      · simp only [hcfg, if_true]
        simp [List.lookup, hbeq, ih]
      · simp only [hcfg, if_false]
        rw [ih]
        simp [List.lookup, hbeq]

/-- C1: the spec (and the `get_digest` docstring itself) promise that digest
names are accepted in any case and with or without interior dashes, e.g.
`"SHA-256"` ≡ `"sha256"`.  The code only lower-cases the name and never
removes dashes, so the undashed names resolve in any case, while every dashed
variant is rejected with a `ConfigError`. -/
theorem C1_digest_dashed_variant_rejected :
    get_digest "sha256" = .ok .sha256 ∧
    get_digest "SHA256" = .ok .sha256 ∧
    get_digest "Sha384" = .ok .sha384 ∧
    get_digest "SHA512" = .ok .sha512 ∧
    get_digest "SHA-256" = .error (.configError
      ("Unsupported digest: " ++ (JsonValue.str "sha-256").pyRepr)) ∧
    get_digest "sha-512" = .error (.configError
      ("Unsupported digest: " ++ (JsonValue.str "sha-512").pyRepr)) := by
  exact ⟨rfl, rfl, rfl, rfl, rfl, rfl⟩

/-- C4: `validate_dn` succeeds on every DN whose `commonName` is a string
that is non-blank after stripping, regardless of other fields, and fails
with a `ConfigError` when the `commonName` is blank or absent (in particular
on the empty DN). -/
theorem C4_validate_dn_commonName (dn : PyDict) :
    (∀ s, dn.lookup "commonName" = some (.str s) → pyStrip s ≠ "" →
      validate_dn dn = .ok ()) ∧
    (∀ s, dn.lookup "commonName" = some (.str s) → pyStrip s = "" →
      validate_dn dn = .error (.configError
        "DN is missing commonName. Provide it in the JSON config or via CLI.")) ∧
    (dn.lookup "commonName" = none →
      ∃ msg, validate_dn dn = .error (.configError msg)) := by
  refine ⟨?_, ?_, ?_⟩
  · intro s hs hns
    have hdn : dn.isEmpty = false := by
      cases dn with
      | nil => simp at hs
      | cons a l => rfl
    have hsne : s ≠ "" := by
      intro h
      subst h
      exact hns rfl
    simp [validate_dn, hdn, hs, pyTruthy, pyStr, hsne, hns]
  · intro s hs hz
    have hdn : dn.isEmpty = false := by
      cases dn with
      | nil => simp at hs
      | cons a l => rfl
    simp [validate_dn, hdn, hs, pyStr, hz]
  · intro hnone
    by_cases hdn : dn.isEmpty
    · exact ⟨"DN is empty. You must supply DN attributes (at least commonName) either via CLI or JSON configuration.",
        by simp [validate_dn, hdn]⟩
    · exact ⟨"DN is missing commonName. Provide it in the JSON config or via CLI.",
        by simp [validate_dn, hdn, hnone]⟩

/-- C4 witness. -/
theorem C4_validate_dn_commonName_witness :
    validate_dn [("commonName", JsonValue.str "example.test"),
      ("organizationName", JsonValue.str "Org")] = .ok () ∧
    validate_dn [("commonName", JsonValue.str "   ")] = .error (.configError
      "DN is missing commonName. Provide it in the JSON config or via CLI.") ∧
    (∃ msg, validate_dn [("organizationName", JsonValue.str "Org")] =
      .error (.configError msg)) := by
  refine ⟨?_, ?_, ?_⟩
  · exact (C4_validate_dn_commonName _).1 "example.test" rfl (by decide)
  · exact (C4_validate_dn_commonName _).2.1 "   " rfl (by decide)
  · exact (C4_validate_dn_commonName _).2.2 rfl

/-- C5: the private-key-type validation (the check shared verbatim by
`merge_settings_json` and `generate_from_dn_and_config`) succeeds exactly
when the string value, upper-cased, equals `"RSA"`; any other string — and
an absent value, which defaults to the empty string — fails with a
`ConfigError` naming the unsupported type. -/
theorem C5_private_key_type_rsa (cfg : PyDict) (v : Option String)
    (h : cfg.lookup "private_key_type" = v.map JsonValue.str) :
    (check_private_key_type cfg = .ok () ↔ pyUpper (v.getD "") = "RSA") ∧
    (pyUpper (v.getD "") ≠ "RSA" →
      check_private_key_type cfg = .error (.configError
        ("Unsupported private_key_type " ++ (JsonValue.str (v.getD "")).pyRepr ++
          "; only \x27RSA\x27 is supported."))) := by
  cases v with
  | none =>
    have hch : check_private_key_type cfg = .error (.configError
        ("Unsupported private_key_type " ++ (JsonValue.str "").pyRepr ++
          "; only \x27RSA\x27 is supported.")) := by
      simp only [check_private_key_type, h]
      rfl
    refine ⟨?_, ?_⟩
    · rw [hch]
      constructor
      · intro hok
        simp at hok
      · intro hup
        exact absurd hup (by decide)
    · intro _
      rw [hch]
      rfl
  | some s =>
    by_cases hup : pyUpper s = "RSA"
    · have hch : check_private_key_type cfg = .ok () := by
        simp [check_private_key_type, h, hup]
      refine ⟨?_, ?_⟩
      · rw [hch]
        simp [hup]
      · intro hne
        exact absurd hup hne
    · have hch : check_private_key_type cfg = .error (.configError
          ("Unsupported private_key_type " ++ (JsonValue.str s).pyRepr ++
            "; only \x27RSA\x27 is supported.")) := by
        simp [check_private_key_type, h, hup]
      refine ⟨?_, ?_⟩
      · rw [hch]
        constructor
        · intro hok
          simp at hok
        · intro h2
          exact absurd h2 hup
      · intro _
        rw [hch]
        rfl

/-- C5 witness. -/
theorem C5_private_key_type_rsa_witness :
    check_private_key_type [("private_key_type", JsonValue.str "rsa")] = .ok () ∧
    check_private_key_type [] = .error (.configError
      ("Unsupported private_key_type " ++ (JsonValue.str "").pyRepr ++
        "; only \x27RSA\x27 is supported.")) ∧
    check_private_key_type [("private_key_type", JsonValue.str "dsa")] =
      .error (.configError
        ("Unsupported private_key_type " ++ (JsonValue.str "dsa").pyRepr ++
          "; only \x27RSA\x27 is supported.")) := by
  refine ⟨?_, ?_, ?_⟩
  · exact (C5_private_key_type_rsa [("private_key_type", JsonValue.str "rsa")]
      (some "rsa") rfl).1.mpr (by decide)
  · exact (C5_private_key_type_rsa [] none rfl).2 (by decide)
  · exact (C5_private_key_type_rsa [("private_key_type", JsonValue.str "dsa")]
      (some "dsa") rfl).2 (by decide)

/-- C8: `_coerce_bool` passes booleans through, truthiness-coerces numbers,
maps trimmed lower-cased strings in the two recognized word sets to
`true`/`false`, and fails on everything else with a `ConfigError` naming the
offending value. -/
theorem C8_coerce_bool_ruleset (value : JsonValue) :
    (∀ b, value = .bool b → _coerce_bool value = .ok b) ∧
    (∀ n, value = .int n → _coerce_bool value = .ok (n != 0)) ∧
    (∀ x, value = .float x → _coerce_bool value = .ok (x != 0)) ∧
    (∀ s, value = .str s → pyLower (pyStrip s) ∈ ["1", "true", "yes", "y", "on"] →
      _coerce_bool value = .ok true) ∧
    (∀ s, value = .str s → pyLower (pyStrip s) ∈ ["0", "false", "no", "n", "off"] →
      _coerce_bool value = .ok false) ∧
    (∀ s, value = .str s →
      pyLower (pyStrip s) ∉ ["1", "true", "yes", "y", "on"] →
      pyLower (pyStrip s) ∉ ["0", "false", "no", "n", "off"] →
      _coerce_bool value = .error (.configError
        ("Cannot coerce " ++ value.pyRepr ++ " to bool"))) ∧
    ((value = .null ∨ (∃ xs, value = .arr xs) ∨ (∃ fields, value = .obj fields)) →
      _coerce_bool value = .error (.configError
        ("Cannot coerce " ++ value.pyRepr ++ " to bool"))) := by
  refine ⟨?_, ?_, ?_, ?_, ?_, ?_, ?_⟩
  · intro b hb
    subst hb
    rfl
  · intro n hn
    subst hn
    rfl
  · intro x hx
    subst hx
    rfl
  · intro s hs hmem
    subst hs
    simp only [List.mem_cons, List.not_mem_nil, or_false] at hmem
    simp only [_coerce_bool]
    rcases hmem with h | h | h | h | h <;> simp [h]
  · intro s hs hmem
    subst hs
    simp only [List.mem_cons, List.not_mem_nil, or_false] at hmem
    simp only [_coerce_bool]
    rcases hmem with h | h | h | h | h <;> simp [h]
  · intro s hs h1 h2
    subst hs
    simp only [List.mem_cons, List.not_mem_nil, or_false, not_or] at h1 h2
    obtain ⟨n1, n2, n3, n4, n5⟩ := h1
    obtain ⟨m1, m2, m3, m4, m5⟩ := h2
    simp [_coerce_bool, n1, n2, n3, n4, n5, m1, m2, m3, m4, m5]
  · rintro (rfl | ⟨xs, rfl⟩ | ⟨fields, rfl⟩) <;> rfl

/-- C8 witness. -/
theorem C8_coerce_bool_ruleset_witness :
    _coerce_bool (.bool true) = .ok true ∧
    _coerce_bool (.int 5) = .ok true ∧
    _coerce_bool (.int 0) = .ok false ∧
    _coerce_bool (.str " YES ") = .ok true ∧
    _coerce_bool (.str "off") = .ok false ∧
    _coerce_bool (.str "maybe") = .error (.configError
      ("Cannot coerce " ++ (JsonValue.str "maybe").pyRepr ++ " to bool")) ∧
    _coerce_bool .null = .error (.configError
      ("Cannot coerce " ++ JsonValue.null.pyRepr ++ " to bool")) := by
  refine ⟨?_, ?_, ?_, ?_, ?_, ?_, ?_⟩
  · exact (C8_coerce_bool_ruleset _).1 true rfl
  · exact (C8_coerce_bool_ruleset _).2.1 5 rfl
  · exact (C8_coerce_bool_ruleset _).2.1 0 rfl
  · exact (C8_coerce_bool_ruleset _).2.2.2.1 " YES " rfl (by decide)
  · exact (C8_coerce_bool_ruleset _).2.2.2.2.1 "off" rfl (by decide)
  · exact (C8_coerce_bool_ruleset _).2.2.2.2.2.1 "maybe" rfl (by decide) (by decide)
  · exact (C8_coerce_bool_ruleset _).2.2.2.2.2.2 (Or.inl rfl)

/-- C9: a `private_key_bits` (or `valid_days`) value that Python `int()`
cannot convert makes `_coerce_config_types` and `merge_settings_json` raise
a bare `ValueError`, which is not part of the `CertToolError` hierarchy, so
a caller catching only `CertToolError` misses it. -/
theorem C9_int_coercion_escapes_base :
    _coerce_config_types [("private_key_bits", JsonValue.str "abc")] =
      .error (.valueError
        ("invalid literal for int() with base 10: " ++ (JsonValue.str "abc").pyRepr)) ∧
    _coerce_config_types [("valid_days", JsonValue.str "abc")] =
      .error (.valueError
        ("invalid literal for int() with base 10: " ++ (JsonValue.str "abc").pyRepr)) ∧
    merge_settings_json (some [("commonName", JsonValue.str "x")])
        (some [("private_key_bits", JsonValue.str "abc")]) =
      .error (.valueError
        ("invalid literal for int() with base 10: " ++ (JsonValue.str "abc").pyRepr)) ∧
    (PyError.valueError
      ("invalid literal for int() with base 10: " ++
        (JsonValue.str "abc").pyRepr)).isCertToolError = false ∧
    (PyError.configError "any").isCertToolError = true := by
  exact ⟨rfl, rfl, rfl, rfl, rfl⟩

/-- C3: when serialization is asked to encrypt but the passphrase is absent
or empty, `serialize_cert_components` raises a `ConfigError` with no encoding
step performed and no output produced; with a non-empty passphrase the key is
encoded encrypted under exactly that passphrase, and with the flag false it
is encoded unencrypted. -/
theorem C3_serialize_encrypt_guard (components : CertComponents) (encrypt_key : Bool)
    (passphrase : Option String) :
    (encrypt_key = true → (passphrase = none ∨ passphrase = some "") →
      serialize_cert_components components encrypt_key passphrase =
        (.error (.configError
          "encrypt_key is true but no passphrase was provided. Set passphrase in the JSON config or via --passphrase."),
         ([] : List EncodeEvent))) ∧
    (∀ p, encrypt_key = true → passphrase = some p → p ≠ "" →
      serialize_cert_components components encrypt_key passphrase =
        (.ok ⟨⟨components.cert⟩, ⟨components.csr⟩,
          ⟨components.private_key, .bestAvailableEncryption p⟩⟩,
         [.encodeKey, .encodeCsr, .encodeCert])) ∧
    (encrypt_key = false →
      serialize_cert_components components encrypt_key passphrase =
        (.ok ⟨⟨components.cert⟩, ⟨components.csr⟩,
          ⟨components.private_key, .noEncryption⟩⟩,
         [.encodeKey, .encodeCsr, .encodeCert])) := by
  refine ⟨?_, ?_, ?_⟩
  · intro he hp
    subst he
    rcases hp with rfl | rfl <;> rfl
  · intro p he hp hne
    subst he
    subst hp
    simp [serialize_cert_components, hne]
  · intro he
    subst he
    rfl

/-- C3 witness. -/
theorem C3_serialize_encrypt_guard_witness :
    serialize_cert_components
        ⟨⟨2048, 65537⟩, ⟨[], ⟨2048, 65537⟩, .sha256⟩,
          ⟨[], [], ⟨2048, 65537⟩, 1, -60, 31536000,
            [⟨.basicConstraints true none, true⟩], ⟨2048, 65537⟩, .sha256⟩⟩
        true none =
      (.error (.configError
        "encrypt_key is true but no passphrase was provided. Set passphrase in the JSON config or via --passphrase."),
       ([] : List EncodeEvent)) ∧
    serialize_cert_components
        ⟨⟨2048, 65537⟩, ⟨[], ⟨2048, 65537⟩, .sha256⟩,
          ⟨[], [], ⟨2048, 65537⟩, 1, -60, 31536000,
            [⟨.basicConstraints true none, true⟩], ⟨2048, 65537⟩, .sha256⟩⟩
        true (some "") =
      (.error (.configError
        "encrypt_key is true but no passphrase was provided. Set passphrase in the JSON config or via --passphrase."),
       ([] : List EncodeEvent)) ∧
    serialize_cert_components
        ⟨⟨2048, 65537⟩, ⟨[], ⟨2048, 65537⟩, .sha256⟩,
          ⟨[], [], ⟨2048, 65537⟩, 1, -60, 31536000,
            [⟨.basicConstraints true none, true⟩], ⟨2048, 65537⟩, .sha256⟩⟩
        true (some "hunter2") =
      (.ok ⟨⟨⟨[], [], ⟨2048, 65537⟩, 1, -60, 31536000,
            [⟨.basicConstraints true none, true⟩], ⟨2048, 65537⟩, .sha256⟩⟩,
          ⟨⟨[], ⟨2048, 65537⟩, .sha256⟩⟩,
          ⟨⟨2048, 65537⟩, .bestAvailableEncryption "hunter2"⟩⟩,
       [.encodeKey, .encodeCsr, .encodeCert]) ∧
    serialize_cert_components
        ⟨⟨2048, 65537⟩, ⟨[], ⟨2048, 65537⟩, .sha256⟩,
          ⟨[], [], ⟨2048, 65537⟩, 1, -60, 31536000,
            [⟨.basicConstraints true none, true⟩], ⟨2048, 65537⟩, .sha256⟩⟩
        false none =
      (.ok ⟨⟨⟨[], [], ⟨2048, 65537⟩, 1, -60, 31536000,
            [⟨.basicConstraints true none, true⟩], ⟨2048, 65537⟩, .sha256⟩⟩,
          ⟨⟨[], ⟨2048, 65537⟩, .sha256⟩⟩,
          ⟨⟨2048, 65537⟩, .noEncryption⟩⟩,
       [.encodeKey, .encodeCsr, .encodeCert]) := by
  refine ⟨?_, ?_, ?_, ?_⟩
  · exact (C3_serialize_encrypt_guard _ true none).1 rfl (Or.inl rfl)
  · exact (C3_serialize_encrypt_guard _ true (some "")).1 rfl (Or.inr rfl)
  · exact (C3_serialize_encrypt_guard _ true (some "hunter2")).2.1 "hunter2" rfl rfl
      (by decide)
  · exact (C3_serialize_encrypt_guard _ false none).2.2 rfl

/-- C2: the certificate produced by `create_cert_components` carries a
Subject Alternative Name extension exactly when the configured
`subject_alt_names` is a non-empty list; when present, the single SAN
extension lists exactly the input entries in order and is non-critical;
an absent field and an empty list both yield no SAN extension. -/
theorem C2_san_iff_nonempty (dn : PyDict) (cfg : CertCfg) (now : Int) (serial : Nat)
    (comps : CertComponents)
    (h : create_cert_components dn cfg now serial = .ok comps) :
    ((∃ e ∈ comps.cert.extensions, isSANExtension e = true) ↔
      (∃ l, cfg.subject_alt_names = some l ∧ l ≠ [])) ∧
    (∀ l, cfg.subject_alt_names = some l → l ≠ [] →
      comps.cert.extensions.filter (fun e => isSANExtension e) =
        [⟨.subjectAlternativeName l, false⟩]) ∧
    ((cfg.subject_alt_names = none ∨ cfg.subject_alt_names = some []) →
      comps.cert.extensions.filter (fun e => isSANExtension e) = []) := by
  cases hdg : get_digest cfg.digest_alg with
  | error e =>
    simp [create_cert_components, generate_csr, generate_self_signed_cert, hdg,
      Bind.bind, Except.bind] at h
  | ok dig =>
    simp only [create_cert_components, generate_csr, generate_self_signed_cert, hdg,
      Bind.bind, Except.bind, pure, Except.pure, Except.ok.injEq] at h
    subst h
    cases hs : cfg.subject_alt_names with
    | none =>
      refine ⟨?_, ?_, ?_⟩
      · simp [isSANExtension]
      · intro l hl
        cases hl
      · intro _
        simp [isSANExtension]
    | some l =>
      cases l with
      | nil =>
        refine ⟨?_, ?_, ?_⟩
        · simp [isSANExtension]
        · intro l hl hne
          cases hl
          exact absurd rfl hne
        · intro _
          simp [isSANExtension]
      | cons a tl =>
        refine ⟨?_, ?_, ?_⟩
        · constructor
          · intro _
            exact ⟨a :: tl, rfl, by simp⟩
          · intro _
            refine ⟨⟨.subjectAlternativeName (a :: tl), false⟩, ?_, rfl⟩
            simp
        · intro l hl _
          cases hl
          simp [isSANExtension]
        · rintro (hl | hl) <;> cases hl

/-- C2 witness. -/
theorem C2_san_iff_nonempty_witness :
    (∃ comps, create_cert_components [("commonName", JsonValue.str "example.test")]
        ⟨"sha256", 2048, 365, some ["a.test", "b.test"]⟩ 0 1 = .ok comps ∧
      comps.cert.extensions.filter (fun e => isSANExtension e) =
        [⟨.subjectAlternativeName ["a.test", "b.test"], false⟩]) ∧
    (∃ comps, create_cert_components [("commonName", JsonValue.str "example.test")]
        ⟨"sha256", 2048, 365, some []⟩ 0 1 = .ok comps ∧
      comps.cert.extensions.filter (fun e => isSANExtension e) = []) ∧
    (∃ comps, create_cert_components [("commonName", JsonValue.str "example.test")]
        ⟨"sha256", 2048, 365, none⟩ 0 1 = .ok comps ∧
      comps.cert.extensions.filter (fun e => isSANExtension e) = []) := by
  have h1 : create_cert_components [("commonName", JsonValue.str "example.test")]
      ⟨"sha256", 2048, 365, some ["a.test", "b.test"]⟩ 0 1 =
      .ok ⟨⟨2048, 65537⟩,
        ⟨[(.COMMON_NAME, .str "example.test")], ⟨2048, 65537⟩, .sha256⟩,
        ⟨[(.COMMON_NAME, .str "example.test")], [(.COMMON_NAME, .str "example.test")],
          ⟨2048, 65537⟩, 1, -60, 31536000,
          [⟨.basicConstraints true none, true⟩,
           ⟨.subjectAlternativeName ["a.test", "b.test"], false⟩],
          ⟨2048, 65537⟩, .sha256⟩⟩ := rfl
  have h2 : create_cert_components [("commonName", JsonValue.str "example.test")]
      ⟨"sha256", 2048, 365, some []⟩ 0 1 =
      .ok ⟨⟨2048, 65537⟩,
        ⟨[(.COMMON_NAME, .str "example.test")], ⟨2048, 65537⟩, .sha256⟩,
        ⟨[(.COMMON_NAME, .str "example.test")], [(.COMMON_NAME, .str "example.test")],
          ⟨2048, 65537⟩, 1, -60, 31536000,
          [⟨.basicConstraints true none, true⟩],
          ⟨2048, 65537⟩, .sha256⟩⟩ := rfl
  have h3 : create_cert_components [("commonName", JsonValue.str "example.test")]
      ⟨"sha256", 2048, 365, none⟩ 0 1 =
      .ok ⟨⟨2048, 65537⟩,
        ⟨[(.COMMON_NAME, .str "example.test")], ⟨2048, 65537⟩, .sha256⟩,
        ⟨[(.COMMON_NAME, .str "example.test")], [(.COMMON_NAME, .str "example.test")],
          ⟨2048, 65537⟩, 1, -60, 31536000,
          [⟨.basicConstraints true none, true⟩],
          ⟨2048, 65537⟩, .sha256⟩⟩ := rfl
  refine ⟨⟨_, h1, ?_⟩, ⟨_, h2, ?_⟩, ⟨_, h3, ?_⟩⟩
  · exact (C2_san_iff_nonempty _ _ 0 1 _ h1).2.1 ["a.test", "b.test"] rfl (by decide)
  · exact (C2_san_iff_nonempty _ _ 0 1 _ h2).2.2 (Or.inr rfl)
  · exact (C2_san_iff_nonempty _ _ 0 1 _ h3).2.2 (Or.inl rfl)

/-- A suffixed candidate name is never the bare base name (the dash and at
least one digit make it strictly longer). -/
theorem suffixCandidate_ne_base (base : String) (k : Nat) :
    suffixCandidate base k ≠ base := by
  intro h
  have hd := congrArg String.data h
  simp only [suffixCandidate, String.data_append] at hd
  have hdash : ("-" : String).data = ['-'] := rfl
  have hlen := congrArg List.length hd
  simp [List.length_append, hdash] at hlen

/-- C10: a top-level `"dn"` or `"config"` whose value is not a mapping is
silently ignored, and its mere presence selects the explicit-block shape, so
top-level DN field names are dropped — whereas the flat-shape rules would
have routed them to the DN. -/
theorem C10_nonmapping_blocks_ignored (data : PyDict)
    (hsel : dictContains data "dn" = true ∨ dictContains data "config" = true)
    (hdn : ∀ v, data.lookup "dn" = some v → ∀ fields, v ≠ .obj fields)
    (hcfg : ∀ v, data.lookup "config" = some v → ∀ fields, v ≠ .obj fields) :
    _extract_explicit_blocks data = ([], []) ∧
    load_json_config_data data = .ok ([], []) ∧
    (∀ k v, k ∈ DN_KEYS → data.lookup k = some v →
      (_extract_flat_config data).1.lookup k = some v) := by
  have hdnPart : (match data.lookup "dn" with
      | some (.obj fields) => fields
      | _ => ([] : PyDict)) = ([] : PyDict) := by
    cases hd : data.lookup "dn" with
    | none => rfl
    | some v =>
      cases v with
      | obj fields => exact absurd rfl (hdn _ hd fields)
      | null => rfl
      | bool b => rfl
      | int n => rfl
      | float x => rfl
      | str s => rfl
      | arr xs => rfl
  have hcfgPart : (match data.lookup "config" with
      | some (.obj fields) => fields
      | _ => ([] : PyDict)) = ([] : PyDict) := by
    cases hd : data.lookup "config" with
    | none => rfl
    | some v =>
      cases v with
      | obj fields => exact absurd rfl (hcfg _ hd fields)
      | null => rfl
      | bool b => rfl
      | int n => rfl
      | float x => rfl
      | str s => rfl
      | arr xs => rfl
  have hexp : _extract_explicit_blocks data = ([], []) := by
    simp only [_extract_explicit_blocks, hdnPart, hcfgPart]
  refine ⟨hexp, ?_, ?_⟩
  · simp only [load_json_config_data, if_pos hsel, hexp]
    rfl
  · intro k v hk hv
    rw [extract_flat_dn_lookup data k hk]
    exact hv

/-- C10 witness. -/
theorem C10_nonmapping_blocks_ignored_witness :
    load_json_config_data
        [("dn", JsonValue.str "oops"), ("commonName", JsonValue.str "x")] =
      .ok ([], []) ∧
    (_extract_flat_config
        [("dn", JsonValue.str "oops"), ("commonName", JsonValue.str "x")]).1.lookup
      "commonName" = some (JsonValue.str "x") := by
  have h := C10_nonmapping_blocks_ignored
    [("dn", JsonValue.str "oops"), ("commonName", JsonValue.str "x")]
    (Or.inl rfl)
    (by
      intro v hv fields
      have hv2 : some (JsonValue.str "oops") = some v := hv
      cases hv2
      simp)
    (by
      intro v hv fields
      have hv2 : (none : Option JsonValue) = some v := hv
      cases hv2)
  exact ⟨h.2.1, h.2.2 "commonName" (.str "x") (by decide) rfl⟩

/-- C6: directory creation in `make_cert_subdir` is exclusive (the returned
name never pre-exists), a taken preferred name falls back to the first free
numeric suffix with every smaller suffix occupied, and two generations with
the same common name into the same root yield the bare slug and then the
`-1`-suffixed name, which are distinct. -/
theorem C6_subdir_collision_suffix (fs : List String) (dn : PyDict)
    (label : Option String) :
    ((make_cert_subdir fs dn label).1 ∉ fs ∧
      (make_cert_subdir fs dn label).2 = fs ++ [(make_cert_subdir fs dn label).1]) ∧
    (subdirBaseName dn label ∈ fs →
      ∃ k, 1 ≤ k ∧
        (make_cert_subdir fs dn label).1 = suffixCandidate (subdirBaseName dn label) k ∧
        suffixCandidate (subdirBaseName dn label) k ∉ fs ∧
        ∀ j, 1 ≤ j → j < k → suffixCandidate (subdirBaseName dn label) j ∈ fs) ∧
    (subdirBaseName dn label ∉ fs →
      suffixCandidate (subdirBaseName dn label) 1 ∉ fs →
      (make_cert_subdir fs dn label).1 = subdirBaseName dn label ∧
      (make_cert_subdir (make_cert_subdir fs dn label).2 dn label).1 =
        suffixCandidate (subdirBaseName dn label) 1 ∧
      (make_cert_subdir (make_cert_subdir fs dn label).2 dn label).1 ≠
        (make_cert_subdir fs dn label).1) := by
  by_cases hb : subdirBaseName dn label ∈ fs
  · have hmk : make_cert_subdir fs dn label =
        (suffixCandidate (subdirBaseName dn label)
          (freshCounter fs (subdirBaseName dn label)),
         fs ++ [suffixCandidate (subdirBaseName dn label)
          (freshCounter fs (subdirBaseName dn label))]) := by
      simp [make_cert_subdir, hb]
    have hspec := Nat.find_spec (fresh_suffix_exists fs (subdirBaseName dn label))
    refine ⟨⟨?_, ?_⟩, ?_, ?_⟩
    · rw [hmk]
      simpa [freshCounter] using hspec
    · rw [hmk]
    · intro _
      refine ⟨freshCounter fs (subdirBaseName dn label),
        Nat.succ_le_succ (Nat.zero_le _), by rw [hmk],
        by simpa [freshCounter] using hspec, ?_⟩
      intro j h1 hj
      have hj1 : j - 1 < Nat.find (fresh_suffix_exists fs (subdirBaseName dn label)) := by
        simp only [freshCounter] at hj
        omega
      have hmin := Nat.find_min (fresh_suffix_exists fs (subdirBaseName dn label)) hj1
      have hj2 : j - 1 + 1 = j := by omega
      rw [hj2] at hmin
      exact not_not.mp hmin
    · intro hnb _
      exact absurd hb hnb
  · have hmk : make_cert_subdir fs dn label =
        (subdirBaseName dn label, fs ++ [subdirBaseName dn label]) := by
      simp [make_cert_subdir, hb]
    refine ⟨⟨by rw [hmk]; exact hb, by rw [hmk]⟩, ?_, ?_⟩
    · intro hmem
      exact absurd hmem hb
    · intro _ h1
      have hmem2 : subdirBaseName dn label ∈ fs ++ [subdirBaseName dn label] := by
        simp
      have hf0 : Nat.find (fresh_suffix_exists (fs ++ [subdirBaseName dn label])
          (subdirBaseName dn label)) = 0 := by
        rw [Nat.find_eq_zero]
        simp only [List.mem_append, List.mem_singleton, not_or]
        exact ⟨h1, suffixCandidate_ne_base (subdirBaseName dn label) 1⟩
      have hmk2 : make_cert_subdir (fs ++ [subdirBaseName dn label]) dn label =
          (suffixCandidate (subdirBaseName dn label) 1,
           (fs ++ [subdirBaseName dn label]) ++
             [suffixCandidate (subdirBaseName dn label) 1]) := by
        simp only [make_cert_subdir, hmem2, not_true_eq_false, if_false, freshCounter]
        rw [hf0]
      refine ⟨by rw [hmk], ?_, ?_⟩
      · rw [hmk, hmk2]
      · rw [hmk, hmk2]
        exact suffixCandidate_ne_base (subdirBaseName dn label) 1

/-- C6 witness. -/
theorem C6_subdir_collision_suffix_witness :
    (make_cert_subdir [] [("commonName", JsonValue.str "example.test")] none).1 =
      "example.test" ∧
    (make_cert_subdir
        (make_cert_subdir [] [("commonName", JsonValue.str "example.test")] none).2
        [("commonName", JsonValue.str "example.test")] none).1 = "example.test-1" ∧
    (make_cert_subdir
        (make_cert_subdir [] [("commonName", JsonValue.str "example.test")] none).2
        [("commonName", JsonValue.str "example.test")] none).1 ≠
      (make_cert_subdir [] [("commonName", JsonValue.str "example.test")] none).1 := by
  have hbase : subdirBaseName [("commonName", JsonValue.str "example.test")] none =
      "example.test" := by decide
  have hcand : suffixCandidate "example.test" 1 = "example.test-1" := by decide
  obtain ⟨ha, hb, hc⟩ :=
    (C6_subdir_collision_suffix [] [("commonName", JsonValue.str "example.test")]
      none).2.2 (by simp) (by simp)
  refine ⟨?_, ?_, hc⟩
  · rw [ha, hbase]
  · rw [hb, hbase, hcand]

/-- C7: batch processing of a config directory sorts the files
lexicographically, processes every file independently (a failure is recorded
in the report of that file and does not stop later files), treats an empty
directory as a config error, and raises a summary `CertToolError` naming the
failure count exactly when at least one file failed. -/
theorem C7_batch_independent_failures (config_dir : String) (files : List String)
    (runItem : String → Except PyError Unit) :
    (files = [] →
      process_config_dir_mode true config_dir files runItem =
        ([], .error (.configError ("No *.json files found in " ++ config_dir)))) ∧
    (files ≠ [] →
      ((process_config_dir_mode true config_dir files runItem).1.map Prod.fst =
          files.insertionSort strLe) ∧
      ((process_config_dir_mode true config_dir files runItem).1.map Prod.fst).Perm
        files ∧
      List.Sorted strLe
        ((process_config_dir_mode true config_dir files runItem).1.map Prod.fst) ∧
      (∀ f ∈ files,
        (f, match runItem f with | .ok _ => none | .error e => some e) ∈
          (process_config_dir_mode true config_dir files runItem).1) ∧
      (((process_config_dir_mode true config_dir files runItem).1.filter
          (fun r => r.2.isSome)).length = 0 →
        (process_config_dir_mode true config_dir files runItem).2 = .ok ()) ∧
      (0 < ((process_config_dir_mode true config_dir files runItem).1.filter
          (fun r => r.2.isSome)).length →
        (process_config_dir_mode true config_dir files runItem).2 =
          .error (.certToolError
            (Nat.repr ((process_config_dir_mode true config_dir files runItem).1.filter
              (fun r => r.2.isSome)).length ++
              " config file(s) failed; see error messages above.")))) := by
  constructor
  · intro h
    subst h
    rfl
  · intro hne
    have hperm : (files.insertionSort strLe).Perm files :=
      List.perm_insertionSort strLe files
    have hns : (files.insertionSort strLe).isEmpty = false := by
      cases hi : files.insertionSort strLe with
      | nil =>
        exfalso
        rw [hi] at hperm
        exact hne hperm.nil_eq.symm
      | cons a l => rfl
    have hout : process_config_dir_mode true config_dir files runItem =
        ((files.insertionSort strLe).map (fun f =>
          (f, match runItem f with | .ok _ => none | .error e => some e)),
         if (((files.insertionSort strLe).map (fun f =>
              (f, match runItem f with | .ok _ => none | .error e => some e))).filter
              (fun r => r.2.isSome)).length = 0 then .ok ()
         else .error (.certToolError
            (Nat.repr (((files.insertionSort strLe).map (fun f =>
              (f, match runItem f with | .ok _ => none | .error e => some e))).filter
              (fun r => r.2.isSome)).length ++
              " config file(s) failed; see error messages above."))) := by
      simp only [process_config_dir_mode, Bool.not_true, Bool.false_eq_true, if_false,
        hns]
    have hmapfst : (process_config_dir_mode true config_dir files runItem).1.map
        Prod.fst = files.insertionSort strLe := by
      have hgen : ∀ l : List String, List.map Prod.fst (l.map (fun f =>
          (f, match runItem f with | .ok _ => none | .error e => some e))) = l := by
        intro l
        induction l with
        | nil => rfl
        | cons a t ih =>
          simp only [List.map_cons]
          rw [ih]
      rw [hout]
      exact hgen _
    refine ⟨hmapfst, ?_, ?_, ?_, ?_, ?_⟩
    · rw [hmapfst]
      exact hperm
    · rw [hmapfst]
      exact List.sorted_insertionSort strLe files
    · intro f hf
      rw [hout]
      exact List.mem_map_of_mem _ ((hperm.mem_iff (a := f)).mpr hf)
    · intro hz
      rw [hout]
      rw [hout] at hz
      simp only at hz
      simp [hz]
    · intro hpos
      rw [hout]
      rw [hout] at hpos
      simp only at hpos
      simp [Nat.pos_iff_ne_zero.mp hpos]

/-- C7 witness. -/
theorem C7_batch_independent_failures_witness :
    process_config_dir_mode true "confdir" ["b.json", "a.json", "c.json"]
        (fun f => if f = "b.json" then .error (.configError "bad") else .ok ()) =
      ([("a.json", none), ("b.json", some (.configError "bad")), ("c.json", none)],
       .error (.certToolError
         (Nat.repr 1 ++ " config file(s) failed; see error messages above."))) ∧
    ((process_config_dir_mode true "confdir" ["b.json", "a.json", "c.json"]
        (fun f => if f = "b.json" then .error (.configError "bad") else .ok ())).1.map
      Prod.fst).Perm ["b.json", "a.json", "c.json"] ∧
    process_config_dir_mode true "confdir" ([] : List String)
        (fun _ => .ok ()) =
      ([], .error (.configError ("No *.json files found in " ++ "confdir"))) := by
  refine ⟨by rfl, ?_, ?_⟩
  · exact ((C7_batch_independent_failures "confdir" ["b.json", "a.json", "c.json"]
      (fun f => if f = "b.json" then .error (.configError "bad") else .ok ())).2
      (by simp)).2.1
  · exact (C7_batch_independent_failures "confdir" [] (fun _ => .ok ())).1 rfl

end CertTool
